import Mathlib

/-!
Shallow embedding of the "computacion" REST API (Express + MongoDB):
`server.js` route handlers and `utils.js` field control, modelled as pure
functions over an explicit document store.  JS numbers are modelled as
exact decimals `m / 10 ^ e` (every numeric literal that can occur in the
claims is such a decimal; float rounding is irrelevant to every claim),
compared by value via integer cross-multiplication.  `parseInt` is
modelled with its sign, hex-prefix radix and leading-decimal-digit
rules; `parseFloat` with sign, the `Infinity` literal (a non-finite
result of its own), and decimal literals with fraction and exponent
parts.  The store is the list of
documents of the single `computacion` collection; a request handler
returns the HTTP response produced, the store after the request, and
whether the handler reached `connectDB` (i.e. any store interaction).
The model assumes a functioning store: `connectDB` succeeds (the
`!client` branches returning 500 are connection-failure paths) and writes
are acknowledged, as MongoDB acknowledges writes under the default write
concern.
-/

namespace Computacion

/-- A JS number as an exact decimal: value `m / 10 ^ e`. -/
structure JNum where
  m : Int
  e : Nat
deriving DecidableEq, Repr

/-- Value equality of two JS numbers (`===` on numbers, BSON numeric
equality): cross-multiplied integer comparison. -/
def JNum.eqv (a b : JNum) : Bool := a.m * 10 ^ b.e == b.m * 10 ^ a.e

/-- `a <= b` on JS numbers. -/
def JNum.le (a b : JNum) : Bool := decide (a.m * 10 ^ b.e ≤ b.m * 10 ^ a.e)

/-- The JS number for an integer. -/
def JNum.ofInt (n : Int) : JNum := ⟨n, 0⟩

/-- Truncation toward zero (the effect of JS `parseInt` on a number). -/
def JNum.trunc (a : JNum) : Int :=
  if 0 ≤ a.m then ((a.m.natAbs / 10 ^ a.e : Nat) : Int)
  else -((a.m.natAbs / 10 ^ a.e : Nat) : Int)

/-- A JSON primitive value as it appears in request bodies and stored
documents: a JS number, a string, or a boolean. -/
inductive Prim where
  | num (q : JNum)
  | str (s : String)
  | bool (b : Bool)
deriving DecidableEq, Repr

/-- Shorthand for an integer-valued JSON number. -/
def pnum (n : Int) : Prim := .num (JNum.ofInt n)

/-- A JSON object: association list of field name to primitive value.
Both request bodies and stored documents have this shape. -/
abbrev Doc := List (String × Prim)

/-- Field access `obj[k]` on a JSON object: the first binding of key `k`,
`none` when the property is absent (JS `undefined`). -/
def dget (k : String) : Doc → Option Prim
  | [] => none
  | (k2, v) :: rest => if k2 = k then some v else dget k rest

/-- JS truthiness of a possibly-absent primitive value: `undefined`, `0`,
`""` and `false` are falsy, everything else truthy. -/
def truthy : Option Prim → Bool
  | none => false
  | some (.num q) => !(q.m == 0)
  | some (.str s) => !(s == "")
  | some (.bool b) => b

/-- Whitespace for JS `trim()` / leading-whitespace skipping. -/
def wsChar (c : Char) : Bool := c == ' ' || c == '\t' || c == '\n' || c == '\r'

/-- `String.prototype.trim()` on the character list. -/
def trimList (l : List Char) : List Char :=
  ((l.dropWhile wsChar).reverse.dropWhile wsChar).reverse

/-- Numeric value of a digit run. -/
def digitsVal (l : List Char) : Nat :=
  l.foldl (fun a c => a * 10 + (c.toNat - '0'.toNat)) 0

/-- Leading digit run of a character list interpreted as a natural
number; `none` when the list does not start with a digit (JS `NaN`). -/
def parseLeadingNat (l : List Char) : Option Nat :=
  let ds := l.takeWhile Char.isDigit
  if ds.isEmpty then none else some (digitsVal ds)

/-- Hexadecimal digit test, for `parseInt`'s hex-prefix radix. -/
def isHexDigitCh (c : Char) : Bool :=
  c.isDigit || ('a' ≤ c && c ≤ 'f') || ('A' ≤ c && c ≤ 'F')

/-- Numeric value of one hexadecimal digit. -/
def hexDigitVal (c : Char) : Nat :=
  if c.isDigit then c.toNat - '0'.toNat
  else if 'a' ≤ c && c ≤ 'f' then c.toNat - 'a'.toNat + 10
  else c.toNat - 'A'.toNat + 10

/-- Numeric value of a hexadecimal digit run. -/
def hexDigitsVal (l : List Char) : Nat :=
  l.foldl (fun a c => a * 16 + hexDigitVal c) 0

/-- Leading hexadecimal digit run as a natural number; `none` when the
list does not start with a hex digit. -/
def parseLeadingHexNat (l : List Char) : Option Nat :=
  let ds := l.takeWhile isHexDigitCh
  if ds.isEmpty then none else some (hexDigitsVal ds)

/-- JS `parseInt` after the optional sign: a `0x`/`0X` prefix switches to
radix 16 (with `NaN` when no hex digit follows the prefix), otherwise
leading decimal digits; trailing garbage is ignored. -/
def parseIntNoSign : List Char → Option Int
  | '0' :: 'x' :: rest => (parseLeadingHexNat rest).map (fun v => (v : Int))
  | '0' :: 'X' :: rest => (parseLeadingHexNat rest).map (fun v => (v : Int))
  | l => (parseLeadingNat l).map (fun v => (v : Int))

/-- JS `parseInt` on a character list: optional sign, then hex-prefixed
or decimal leading digits; trailing garbage is ignored; `none` models
`NaN`. -/
def parseIntList : List Char → Option Int
  | '-' :: rest => (parseIntNoSign rest).map (fun v => -v)
  | '+' :: rest => parseIntNoSign rest
  | l => parseIntNoSign l

/-- `parseInt(s.trim())` as the route handlers apply it to path
parameters. -/
def parseIntJS (s : String) : Option Int := parseIntList (trimList s.toList)

/-- A JS `parseFloat` result other than `NaN`: `Infinity`/`-Infinity`,
or a finite decimal. -/
inductive JSFloat where
  | infinite (neg : Bool)
  | finite (q : JNum)
deriving DecidableEq, Repr

/-- JS unary minus on a non-`NaN` float. -/
def JSFloat.neg : JSFloat → JSFloat
  | .infinite b => .infinite (!b)
  | .finite q => .finite ⟨-q.m, q.e⟩

/-- JS truthiness of a non-`NaN` float: only (`-`)`0` is falsy, both
infinities are truthy. -/
def JSFloat.falsy : JSFloat → Bool
  | .infinite _ => false
  | .finite q => q.m == 0

/-- Scale a decimal by `10 ^ ex` (the effect of an exponent part). -/
def applyExp (q : JNum) (ex : Int) : JNum :=
  if 0 ≤ ex then
    let exn := ex.toNat
    if q.e ≤ exn then ⟨q.m * 10 ^ (exn - q.e), 0⟩ else ⟨q.m, q.e - exn⟩
  else ⟨q.m, q.e + (-ex).toNat⟩

/-- Signed exponent digits after `e`/`E`; a malformed exponent part
(no digits) contributes nothing, as `parseFloat` takes the longest valid
prefix (`parseFloat("1e") = 1`). -/
def parseExpSigned (l : List Char) : Int :=
  match l with
  | '+' :: r => match parseLeadingNat r with | some v => (v : Int) | none => 0
  | '-' :: r => match parseLeadingNat r with | some v => -(v : Int) | none => 0
  | r => match parseLeadingNat r with | some v => (v : Int) | none => 0

/-- Exponent part (`e`/`E`, optional sign, digits) of a decimal literal;
0 when absent or malformed. -/
def parseExpPart : List Char → Int
  | 'e' :: r => parseExpSigned r
  | 'E' :: r => parseExpSigned r
  | _ => 0

/-- Leading decimal literal (digits, optional dot and fraction digits,
optional exponent part); `none` when no digit occurs in integer or
fraction position (JS `NaN`). -/
def parseDecLeading (l : List Char) : Option JNum :=
  let intDs := l.takeWhile Char.isDigit
  let rest := l.drop intDs.length
  let fracDs := match rest with
    | '.' :: r => r.takeWhile Char.isDigit
    | _ => []
  if intDs.isEmpty && fracDs.isEmpty then none
  else
    let mant : JNum :=
      ⟨((digitsVal intDs * 10 ^ fracDs.length + digitsVal fracDs : Nat) : Int), fracDs.length⟩
    let afterMant := match rest with
      | '.' :: r => r.drop fracDs.length
      | _ => rest
    some (applyExp mant (parseExpPart afterMant))

/-- JS `parseFloat` magnitude: the exact literal `Infinity`, or a
leading decimal literal. -/
def parseFloatMag (l : List Char) : Option JSFloat :=
  if l.take 8 = "Infinity".toList then some (.infinite false)
  else (parseDecLeading l).map .finite

/-- JS `parseFloat` on a character list: optional sign then `Infinity`
or a leading decimal literal with optional exponent; `none` models
`NaN`. -/
def parseFloatList : List Char → Option JSFloat
  | '-' :: rest => (parseFloatMag rest).map JSFloat.neg
  | '+' :: rest => parseFloatMag rest
  | l => parseFloatMag l

/-- `parseFloat(s.trim())` as the handlers apply it to path parameters. -/
def parseFloatJS (s : String) : Option JSFloat := parseFloatList (trimList s.toList)

/-- JS `parseInt` applied to a possibly-absent body field (`parseInt` of
a number truncates toward zero; of a string, parses its leading integer
after skipping whitespace; of a boolean or `undefined`, gives `NaN`). -/
def parseIntPrim : Option Prim → Option Int
  | none => none
  | some (.num q) => some q.trunc
  | some (.str s) => parseIntList (s.toList.dropWhile wsChar)
  | some (.bool _) => none

/-- JS `parseFloat` applied to a possibly-absent body field, restricted
to the finite results the price-patch claims are about.  A JSON number
literal is always finite (JSON has no `Infinity` literal); a string
field parsing to `±Infinity` cannot be represented as a stored finite
decimal and is treated as invalid here — every price-patch claim
hypothesises a finite parsed price. -/
def parseFloatPrim : Option Prim → Option JNum
  | none => none
  | some (.num q) => some q
  | some (.str s) =>
      match parseFloatList (s.toList.dropWhile wsChar) with
      | some (.finite q) => some q
      | _ => none
  | some (.bool _) => none

/-! ### utils.js -/

/-- `camposPermitidos` of `utils.js`. -/
def camposPermitidos : List String := ["codigo", "nombre", "precio", "categoria"]

/-- `controlDeCampos` of `utils.js`: the keys of the body that are not in
the allowed set, in body order
(`Object.keys(nuevoProducto).filter(campo => !camposPermitidos.includes(campo))`). -/
def controlDeCampos (nuevoProducto : Doc) : List String :=
  (nuevoProducto.map Prod.fst).filter (fun campo => !(camposPermitidos.contains campo))

namespace Regexi

/-- Single-character match under the `i` flag: `.` matches anything,
otherwise case-insensitive character equality. -/
def charMatch (p c : Char) : Bool := if p = '.' then true else p.toLower = c.toLower

/-- Case-insensitive regex matching of a whole string against a pattern
built from literal characters, `.` and `*` — the fragment of JS regex
the category route can receive.  `reMatch p s` decides whether `s` as a
whole matches pattern `p`; the category handler's pattern
`new RegExp("^" + q + "$", "i")` is start/end anchored, so its test on a
document field is exactly `reMatch` of the inner query `q` against the
whole field value. -/
def reMatch : List Char → List Char → Bool
  | [], s => s.isEmpty
  | [_], [] => false
  | [p], c :: cs => charMatch p c && cs.isEmpty
  | p :: q :: ps, s =>
    if q = '*' then
      reMatch ps s ||
        (match s with
         | [] => false
         | c :: cs => charMatch p c && reMatch (p :: q :: ps) cs)
    else
      match s with
      | [] => false
      | c :: cs => charMatch p c && reMatch (q :: ps) cs
termination_by p s => p.length + s.length

end Regexi

/-! ### Responses -/

/-- A JSON value occurring in a response body: a primitive, a single
document, or an array of documents. -/
inductive JVal where
  | prim (p : Prim)
  | doc (d : Doc)
  | docs (ds : List Doc)
deriving DecidableEq, Repr

/-- A response body: the JSON object literal passed to `res.json`, with
its keys in source order. -/
abbrev RespBody := List (String × JVal)

/-- Key access on a response body. -/
def rget (k : String) : RespBody → Option JVal
  | [] => none
  | (k2, v) :: rest => if k2 = k then some v else rget k rest

/-- An HTTP response: status code and JSON body. -/
structure Response where
  status : Nat
  body : RespBody
deriving DecidableEq, Repr

/-- An error response `{success: false, msg}` as every error path of
`server.js` builds it. -/
def errResp (status : Nat) (m : String) : Response :=
  ⟨status, [("success", .prim (.bool false)), ("msg", .prim (.str m))]⟩

/-- A data-less success response `{success: true, msg}`. -/
def okMsgResp (m : String) : Response :=
  ⟨200, [("success", .prim (.bool true)), ("msg", .prim (.str m))]⟩

/-- Result of running one handler: the response sent, the collection
after the request, and whether the handler reached `connectDB`. -/
structure HResult where
  resp : Response
  store : List Doc
  db : Bool
deriving DecidableEq, Repr

/-! ### Store operations (MongoDB collection semantics on a list) -/

/-- The filter `{ codigo: n }`: BSON numeric equality of the `codigo`
field with the integer `n` (a string or boolean field never equals a
number). -/
def hasCodigo (n : Int) (d : Doc) : Bool :=
  match dget "codigo" d with
  | some (.num q) => q.eqv (JNum.ofInt n)
  | _ => false

/-- `findOne({ codigo: n })`: first document matching the filter. -/
def findOneCodigo (n : Int) (store : List Doc) : Option Doc :=
  store.find? (hasCodigo n)

/-- The filter `{ precio: { $gte: p } }` on one document: a finite
stored `precio` is `≥ Infinity` never and `≥ -Infinity` always; a
non-numeric or absent `precio` never matches a numeric `$gte`. -/
def precioGte (p : JSFloat) (d : Doc) : Bool :=
  match dget "precio" d, p with
  | some (.num q), .finite a => a.le q
  | some (.num _), .infinite false => false
  | some (.num _), .infinite true => true
  | _, _ => false

/-- The filter `{ categoria: /^q$/i }` on one document: the anchored
case-insensitive regex built by the category handler, tested against the
whole `categoria` string. -/
def catMatches (q : List Char) (d : Doc) : Bool :=
  match dget "categoria" d with
  | some (.str t) => Regexi.reMatch q t.toList
  | _ => false

/-- `$set` of a single field: replace the value of key `k`, or append
the field when absent. -/
def docSet (k : String) (v : Prim) : Doc → Doc
  | [] => [(k, v)]
  | (k2, v2) :: rest => if k2 = k then (k, v) :: rest else (k2, v2) :: docSet k v rest

/-- `$set` of every field of an update object, in object order. -/
def docSetAll (upd : Doc) (d : Doc) : Doc :=
  upd.foldl (fun acc kv => docSet kv.1 kv.2 acc) d

/-- `updateOne`/`deleteOne` target selection: transform the first
document satisfying the filter, leaving all others untouched. -/
def updateFirst (f : Doc → Bool) (g : Doc → Doc) : List Doc → List Doc
  | [] => []
  | d :: ds => if f d then g d :: ds else d :: updateFirst f g ds

/-! ### server.js route handlers -/

/-- `GET /computacion/codigo/:codigo` (server.js): parse the code, 400
when `isNaN`, otherwise `findOne` by code, 200 with the document or
404. -/
def getComputacionCodigo (codigoParam : String) (store : List Doc) : HResult :=
  match parseIntJS codigoParam with
  | none =>
      ⟨errResp 400 "El código del producto no es válido, debe ser numérico", store, false⟩
  | some n =>
      match findOneCodigo n store with
      | some producto =>
          ⟨⟨200, [("response", .doc producto),
                  ("success", .prim (.bool true)),
                  ("msg", .prim (.str ("Producto " ++ toString n ++ " encontrado con éxito")))]⟩,
           store, true⟩
      | none =>
          ⟨errResp 404 ("El producto con código " ++ toString n ++ " no existe"), store, true⟩

/-- The response pair of the price route given the matched documents:
200 with the array, or 404 when none matched. -/
def precioResult (producto store : List Doc) : HResult :=
  if producto.isEmpty then ⟨errResp 404 "Producto no encontrado", store, true⟩
  else
    ⟨⟨200, [("response", .docs producto),
            ("success", .prim (.bool true)),
            ("msg", .prim (.str "Producto encontrado con éxito"))]⟩,
     store, true⟩

/-- `GET /computacion/precio/:precio` (server.js): `parseFloat` the
parameter, 400 when falsy (`!productoPrecio`: `NaN` or `0`), otherwise
find `{ precio: { $gte } }`, 200 with the array or 404. -/
def getComputacionPrecio (precioParam : String) (store : List Doc) : HResult :=
  match parseFloatJS precioParam with
  | none => ⟨errResp 400 "El precio debe ser numérico", store, false⟩
  | some p =>
      if p.falsy then ⟨errResp 400 "El precio debe ser numérico", store, false⟩
      else precioResult (store.filter (precioGte p)) store

/-- The response pair of the category route given the matched documents:
200 with the array — under the misspelled key `respnse`, as in the
source — or 404. -/
def categoriaResult (productos store : List Doc) : HResult :=
  if productos.isEmpty then ⟨errResp 404 "Categoría no encontrada", store, true⟩
  else
    ⟨⟨200, [("respnse", .docs productos),
            ("success", .prim (.bool true)),
            ("msg", .prim (.str "Categoría encontrada con éxito"))]⟩,
     store, true⟩

/-- `GET /computacion/categoria/:categoria` (server.js): trim the
parameter, build `new RegExp("^" + q + "$", "i")` and find by it. -/
def getComputacionCategoria (categoriaParam : String) (store : List Doc) : HResult :=
  let queryProducto := trimList categoriaParam.toList
  categoriaResult (store.filter (catMatches queryProducto)) store

/-- `POST /computacion` (server.js): field allowlist check, then code /
name / price / category validation, then duplicate-`codigo` check, then
`insertOne` of the raw body. -/
def postComputacion (body : Doc) (store : List Doc) : HResult :=
  let camposNoPermitidos := controlDeCampos body
  if ¬ camposNoPermitidos.isEmpty then
    ⟨errResp 400 ("Error, se enviaron campos que no están en la base de datos: "
        ++ String.intercalate ", " camposNoPermitidos), store, false⟩
  else
    -- (the `nuevoProducto === undefined` check never fires: the parsed body is an object)
    match parseIntPrim (dget "codigo" body) with
    | none => ⟨errResp 400 "Código de producto inválido", store, false⟩
    | some codigoProducto =>
      if codigoProducto < 1 then  -- `!codigoProducto || codigoProducto < 1`
        ⟨errResp 400 "Código de producto inválido", store, false⟩
      else if ¬ truthy (dget "nombre" body) then
        ⟨errResp 400 "Le falta enviar el nombre del producto", store, false⟩
      else if ¬ truthy (dget "precio" body) then
        ⟨errResp 400 "Le falta enviar el precio del producto", store, false⟩
      else if ¬ truthy (dget "categoria" body) then
        ⟨errResp 400 "Le falta enviar la categoria del producto", store, false⟩
      else
        match findOneCodigo codigoProducto store with
        | some _ =>
            ⟨errResp 400 ("El código de producto " ++ toString codigoProducto
                ++ ", ya existe. No puede haber otro nuevo producto con el mismo código"),
             store, true⟩
        | none =>
            -- insertOne acknowledges and appends the raw body
            ⟨⟨201, [("response", .doc body),
                    ("success", .prim (.bool true)),
                    ("msg", .prim (.str "Nuevo producto creado con éxito"))]⟩,
             store ++ [body], true⟩

/-- `PUT /computacion/:codigo` (server.js): code-parameter check
(`!codigoProducto`), allowlist check, presence of all four fields, then
`updateOne({codigo}, {$set: body})`; 200 only when `matchedCount === 1`
and `modifiedCount === 1`, otherwise a 500 whose body is
`{response: false, msg}` — with no `success` key, as in the source. -/
def putComputacion (codigoParam : String) (body : Doc) (store : List Doc) : HResult :=
  -- (the `!nuevosDatos` check never fires: the parsed body is an object)
  let codigo? := parseIntJS codigoParam
  if codigo? = none ∨ codigo? = some 0 then  -- `!codigoProducto`
    ⟨errResp 400 "El código de producto es inválido", store, false⟩
  else
    match codigo? with
    | none => ⟨errResp 400 "El código de producto es inválido", store, false⟩
    | some codigoProducto =>
      let camposNoPermitidos := controlDeCampos body
      if ¬ camposNoPermitidos.isEmpty then
        ⟨errResp 400 ("Error, se enviaron campos que no están en la base de datos: "
            ++ String.intercalate ", " camposNoPermitidos), store, false⟩
      else if ¬ truthy (dget "codigo" body) then
        ⟨errResp 400 "Le falta enviar el código del producto para modificar", store, false⟩
      else if ¬ truthy (dget "nombre" body) then
        ⟨errResp 400 "Le falta enviar el nombre del producto para modificar", store, false⟩
      else if ¬ truthy (dget "precio" body) then
        ⟨errResp 400 "Le falta enviar el precio del producto a modificar", store, false⟩
      else if ¬ truthy (dget "categoria" body) then
        ⟨errResp 400 "Le falta enviar la categoría del producto a modificar", store, false⟩
      else
        let newStore := updateFirst (hasCodigo codigoProducto) (docSetAll body) store
        let matchedCount : Nat := if store.any (hasCodigo codigoProducto) then 1 else 0
        let modifiedCount : Nat := if newStore = store then 0 else 1
        -- `response.acknowledged && response.matchedCount === 1 & response.modifiedCount === 1`
        if matchedCount = 1 ∧ modifiedCount = 1 then
          ⟨⟨200, [("response", .doc body),
                  ("success", .prim (.bool true)),
                  ("msg", .prim (.str "Datos modificados con éxito"))]⟩,
           newStore, true⟩
        else
          ⟨⟨500, [("response", .prim (.bool false)),
                  ("msg", .prim (.str "No se pudo modificar el producto, intente nuevamente"))]⟩,
           newStore, true⟩

/-- `PATCH /computacion/:codigo` (server.js): code and price validation
(`!c || c <= 0`, `!p || p <= 0`), then
`updateOne({codigo}, {$set: {precio}})`; 200 when `matchedCount === 1 &&
modifiedCount === 1`, otherwise 404. -/
def patchComputacion (codigoParam : String) (body : Doc) (store : List Doc) : HResult :=
  let codigo? := parseIntJS codigoParam
  let precio? := parseFloatPrim (dget "precio" body)
  match codigo? with
  | none => ⟨errResp 400 "El código de producto es inválido", store, false⟩
  | some codigoProducto =>
    if codigoProducto ≤ 0 then
      ⟨errResp 400 "El código de producto es inválido", store, false⟩
    else
      match precio? with
      | none => ⟨errResp 400 "Ingrese un precio válido para el producto", store, false⟩
      | some nuevoPrecio =>
        if nuevoPrecio.le (JNum.ofInt 0) then
          ⟨errResp 400 "Ingrese un precio válido para el producto", store, false⟩
        else
          let newStore :=
            updateFirst (hasCodigo codigoProducto) (docSet "precio" (.num nuevoPrecio)) store
          let matchedCount : Nat := if store.any (hasCodigo codigoProducto) then 1 else 0
          let modifiedCount : Nat := if newStore = store then 0 else 1
          if matchedCount = 1 ∧ modifiedCount = 1 then
            ⟨okMsgResp "Precio modificado con éxito", newStore, true⟩
          else
            ⟨errResp 404 ("El producto solicitado con código " ++ toString codigoProducto
                ++ ", no existe"), newStore, true⟩

/-- `DELETE /computacion/:codigo` (server.js): code check
(`!codigoProducto`), then `deleteOne({codigo})`.  The source gates the
404 on `!response.acknowledged && response.deletedCount === 0`; an
acknowledging store makes that conjunction false, so the handler answers
200 whether or not anything was deleted. -/
def deleteComputacion (codigoParam : String) (store : List Doc) : HResult :=
  let codigo? := parseIntJS codigoParam
  if codigo? = none ∨ codigo? = some 0 then  -- `!codigoProducto`
    ⟨errResp 400 "Error en el formato de datos", store, false⟩
  else
    match codigo? with
    | none => ⟨errResp 400 "Error en el formato de datos", store, false⟩
    | some codigoProducto =>
      let acknowledged := true
      let deletedCount : Nat := if store.any (hasCodigo codigoProducto) then 1 else 0
      let newStore := store.eraseP (hasCodigo codigoProducto)
      if (!acknowledged) = true ∧ deletedCount = 0 then
        ⟨errResp 404 "No se encontró ningun producto con el código seleccionado", newStore, true⟩
      else
        ⟨okMsgResp "Producto eliminado con éxito", newStore, true⟩

/-! ### Helper lemmas -/

/-- The code path parameter only enters the delete route through
`parseInt`, so parameters parsing alike behave alike. -/
theorem deleteComputacion_parse_congr {p1 p2 : String}
    (h : parseIntJS p1 = parseIntJS p2) (store : List Doc) :
    deleteComputacion p1 store = deleteComputacion p2 store := by
  unfold deleteComputacion; rw [h]

/-- The code path parameter only enters the price-patch route through
`parseInt`. -/
theorem patchComputacion_parse_congr {p1 p2 : String}
    (h : parseIntJS p1 = parseIntJS p2) (body : Doc) (store : List Doc) :
    patchComputacion p1 body store = patchComputacion p2 body store := by
  unfold patchComputacion; rw [h]

/-- The code path parameter only enters the replace route through
`parseInt`. -/
theorem putComputacion_parse_congr {p1 p2 : String}
    (h : parseIntJS p1 = parseIntJS p2) (body : Doc) (store : List Doc) :
    putComputacion p1 body store = putComputacion p2 body store := by
  unfold putComputacion; rw [h]

/-- The code path parameter only enters the get-by-code route through
`parseInt`. -/
theorem getComputacionCodigo_parse_congr {p1 p2 : String}
    (h : parseIntJS p1 = parseIntJS p2) (store : List Doc) :
    getComputacionCodigo p1 store = getComputacionCodigo p2 store := by
  unfold getComputacionCodigo; rw [h]

/-- After `$set` of field `k`, reading `k` gives the new value. -/
theorem dget_docSet_self (k : String) (v : Prim) (d : Doc) :
    dget k (docSet k v d) = some v := by
  induction d with
  | nil => simp [docSet, dget]
  | cons kv rest ih =>
    obtain ⟨k2, v2⟩ := kv
    by_cases h : k2 = k
    · simp [docSet, h, dget]
    · simp [docSet, h, dget, ih]

/-- `$set` of field `k` leaves every other field unchanged. -/
theorem dget_docSet_ne {k2 k : String} (h : k2 ≠ k) (v : Prim) (d : Doc) :
    dget k2 (docSet k v d) = dget k2 d := by
  have h' : k ≠ k2 := fun hh => h hh.symm
  induction d with
  | nil => simp [docSet, dget, h']
  | cons kv rest ih =>
    obtain ⟨k3, v3⟩ := kv
    by_cases h3 : k3 = k
    · subst h3
      simp [docSet, dget, h']
    · simp [docSet, dget, h3, ih]

/-- When some document satisfies the filter, `updateFirst` rewrites
exactly the first such document and no other. -/
theorem updateFirst_decomp {f : Doc → Bool} {g : Doc → Doc} {l : List Doc}
    (h : l.any f = true) :
    ∃ pre d post, l = pre ++ d :: post ∧ (∀ e ∈ pre, f e = false) ∧ f d = true ∧
      updateFirst f g l = pre ++ g d :: post := by
  induction l with
  | nil => simp at h
  | cons a l ih =>
    by_cases ha : f a = true
    · exact ⟨[], a, l, rfl, by simp, ha, by simp [updateFirst, ha]⟩
    · have ha' : f a = false := by simpa using ha
      have h2 : l.any f = true := by simpa [ha'] using h
      obtain ⟨pre, d, post, hl, hpre, hd, hu⟩ := ih h2
      refine ⟨a :: pre, d, post, by simp [hl], ?_, hd, by simp [updateFirst, ha', hu]⟩
      intro e he
      rcases List.mem_cons.mp he with he | he
      · exact he ▸ ha'
      · exact hpre e he

/-- The price-patch handler under a valid code and a valid price: the
store becomes `updateFirst` of the `$set`, the handler answers 200
exactly when a document matched and the update modified it, and 404
otherwise. -/
theorem patchComputacion_valid (param : String) (body : Doc) (store : List Doc)
    (n : Int) (p : JNum)
    (hn : parseIntJS param = some n) (hn0 : 0 < n)
    (hp : parseFloatPrim (dget "precio" body) = some p)
    (hp0 : p.le (JNum.ofInt 0) = false) :
    (patchComputacion param body store).store =
      updateFirst (hasCodigo n) (docSet "precio" (.num p)) store ∧
    ((patchComputacion param body store).resp.status = 200 ↔
      store.any (hasCodigo n) = true ∧
        updateFirst (hasCodigo n) (docSet "precio" (.num p)) store ≠ store) ∧
    ((patchComputacion param body store).resp.status = 404 ↔
      store.any (hasCodigo n) = false ∨
        updateFirst (hasCodigo n) (docSet "precio" (.num p)) store = store) := by
  have hn' : ¬ n ≤ 0 := by omega
  simp only [patchComputacion, hn, hp]
  rw [if_neg hn']
  simp only [hp0, Bool.false_eq_true, if_false]
  by_cases h1 : store.any (hasCodigo n) = true <;>
    by_cases h2 : updateFirst (hasCodigo n) (docSet "precio" (.num p)) store = store <;>
      simp [h1, h2, okMsgResp, errResp]

/-- Case-insensitive character-wise string equality. -/
def lowerEq : List Char → List Char → Bool
  | [], [] => true
  | a :: as, b :: bs => (a.toLower = b.toLower : Bool) && lowerEq as bs
  | _, _ => false

/-- The JS regex metacharacters; a query made only of other characters
is matched literally by the regex engine. -/
def regexMeta : List Char :=
  ['.', '*', '+', '?', '^', '$', '(', ')', '[', ']', '{', '}', '|', '\\']

/-- `c` has no special meaning inside a JS regex. -/
def isRegexLit (c : Char) : Bool := !(regexMeta.contains c)

/-- On a pattern without `*` and `.`, anchored case-insensitive regex
matching is exactly case-insensitive string equality. -/
theorem reMatch_no_meta :
    ∀ (p : List Char), '*' ∉ p → '.' ∉ p → ∀ s, Regexi.reMatch p s = lowerEq p s := by
  intro p
  induction p with
  | nil =>
    intro _ _ s
    cases s <;> simp [Regexi.reMatch, lowerEq]
  | cons a ps ih =>
    intro h1 h2
    have ha_dot : a ≠ '.' := fun hh => h2 (hh ▸ List.mem_cons_self a ps)
    have h1' : '*' ∉ ps := fun hm => h1 (List.mem_cons_of_mem a hm)
    have h2' : '.' ∉ ps := fun hm => h2 (List.mem_cons_of_mem a hm)
    cases ps with
    | nil =>
      intro s
      cases s with
      | nil => simp [Regexi.reMatch, lowerEq]
      | cons c cs =>
        cases cs <;> simp [Regexi.reMatch, lowerEq, Regexi.charMatch, ha_dot]
    | cons b ps2 =>
      have hb_star : b ≠ '*' := fun hh => h1' (hh ▸ List.mem_cons_self b ps2)
      intro s
      cases s with
      | nil => simp [Regexi.reMatch, lowerEq, hb_star]
      | cons c cs =>
        simp [Regexi.reMatch, hb_star, Regexi.charMatch, ha_dot, lowerEq, ih h1' h2' cs]

/-- Exact case-insensitive equality of the `categoria` field with the
query. -/
def catEqCI (q : List Char) (d : Doc) : Bool :=
  match dget "categoria" d with
  | some (.str t) => lowerEq q t.toList
  | _ => false

/-- On a metacharacter-free query, the category regex filter is exactly
case-insensitive equality of `categoria`. -/
theorem catMatches_eq_catEqCI {q : List Char}
    (hq : ∀ c ∈ q, isRegexLit c = true) (d : Doc) :
    catMatches q d = catEqCI q d := by
  have h1 : '*' ∉ q := fun hm => by
    have := hq '*' hm
    simp [isRegexLit, regexMeta] at this
  have h2 : '.' ∉ q := fun hm => by
    have := hq '.' hm
    simp [isRegexLit, regexMeta] at this
  unfold catMatches catEqCI
  cases hdg : dget "categoria" d with
  | none => rfl
  | some p => cases p <;> simp [reMatch_no_meta q h1 h2]

/-- Number of documents whose `codigo` equals the integer `n`. -/
def countCodigo (n : Int) (store : List Doc) : Nat := store.countP (hasCodigo n)

/-- `parseInt` of an integer-valued JS number is that integer. -/
theorem JNum.trunc_ofInt (m : Int) : (JNum.ofInt m).trunc = m := by
  simp only [JNum.trunc, JNum.ofInt, pow_zero, Nat.div_one]
  split <;> omega

/-- A body whose `codigo` field is the integer `m` matches the filter
`{codigo: n}` exactly when `m = n`. -/
theorem hasCodigo_of_dget {body : Doc} {m : Int}
    (hb : dget "codigo" body = some (pnum m)) (n : Int) :
    hasCodigo n body = (m == n) := by
  simp [hasCodigo, hb, pnum, JNum.eqv, JNum.ofInt]

/-! ### Validation-failure predicates (for the fail-fast claim) -/

/-- The create route's code validation fails:
`!codigoProducto || codigoProducto < 1`. -/
def codeLt1 : Option Int → Bool
  | none => true
  | some n => decide (n < 1)

/-- The replace and delete routes' code validation fails:
`!codigoProducto`. -/
def codeZero : Option Int → Bool
  | none => true
  | some n => decide (n = 0)

/-- The price-patch route's code validation fails:
`!codigoProducto || codigoProducto <= 0`. -/
def codeLe0 : Option Int → Bool
  | none => true
  | some n => decide (n ≤ 0)

/-- The price-patch route's price validation fails:
`!nuevoPrecio || nuevoPrecio <= 0`. -/
def priceLe0 : Option JNum → Bool
  | none => true
  | some p => p.le (JNum.ofInt 0)

/-- Some validation of the create route rejects this body. -/
def postValFail (body : Doc) : Prop :=
  controlDeCampos body ≠ [] ∨
  codeLt1 (parseIntPrim (dget "codigo" body)) = true ∨
  truthy (dget "nombre" body) = false ∨
  truthy (dget "precio" body) = false ∨
  truthy (dget "categoria" body) = false

/-- Some validation of the replace route rejects these parameters. -/
def putValFail (param : String) (body : Doc) : Prop :=
  codeZero (parseIntJS param) = true ∨
  controlDeCampos body ≠ [] ∨
  truthy (dget "codigo" body) = false ∨
  truthy (dget "nombre" body) = false ∨
  truthy (dget "precio" body) = false ∨
  truthy (dget "categoria" body) = false

/-- Some validation of the price-patch route rejects these parameters. -/
def patchValFail (param : String) (body : Doc) : Prop :=
  codeLe0 (parseIntJS param) = true ∨
  priceLe0 (parseFloatPrim (dget "precio" body)) = true

/-- A sample stored document used to instantiate claims on concrete
inputs. -/
def demoDoc : Doc :=
  [("codigo", pnum 5), ("nombre", .str "pc"), ("precio", pnum 50), ("categoria", .str "c")]

/-- A stored document of category "ab". -/
def docAB : Doc :=
  [("codigo", pnum 1), ("nombre", .str "x"), ("precio", pnum 10), ("categoria", .str "ab")]

/-- A stored document of category "Monitores". -/
def docMon : Doc :=
  [("codigo", pnum 2), ("nombre", .str "m"), ("precio", pnum 10),
   ("categoria", .str "Monitores")]

/-- A stored document of category "Monitores LED". -/
def docMonLED : Doc :=
  [("codigo", pnum 3), ("nombre", .str "l"), ("precio", pnum 20),
   ("categoria", .str "Monitores LED")]

end Computacion

section SmokeTests
open Computacion
example : parseIntJS "12abc" = some 12 := by decide
example : parseIntJS "abc" = none := by decide
example : parseIntJS "0abc" = some 0 := by decide
example : parseIntJS " -7 " = some (-7) := by decide
example : parseIntJS "0x10" = some 16 := by decide
example : parseIntJS "-0x1A" = some (-26) := by decide
example : parseIntJS "0x" = none := by decide
example : parseIntJS "0xg" = none := by decide
example : parseIntJS "00x10" = some 0 := by decide
example : parseFloatJS "0" = some (.finite ⟨0, 0⟩) := by decide
example : parseFloatJS "3.5" = some (.finite ⟨35, 1⟩) := by decide
example : parseFloatJS "12abc" = some (.finite ⟨12, 0⟩) := by decide
example : parseFloatJS ".5" = some (.finite ⟨5, 1⟩) := by decide
example : parseFloatJS "." = none := by decide
example : parseFloatJS "1e5" = some (.finite ⟨100000, 0⟩) := by decide
example : parseFloatJS "1e" = some (.finite ⟨1, 0⟩) := by decide
example : parseFloatJS "1.5e2" = some (.finite ⟨150, 0⟩) := by decide
example : parseFloatJS "1e-2" = some (.finite ⟨1, 2⟩) := by decide
example : parseFloatJS "Infinity" = some (.infinite false) := by decide
example : parseFloatJS "-Infinity" = some (.infinite true) := by decide
example : parseFloatJS "Inf" = none := by decide
example : JNum.eqv ⟨35, 1⟩ ⟨350, 2⟩ = true := by decide
example : JNum.trunc ⟨-127, 1⟩ = -12 := by decide
example : controlDeCampos [("codigo", pnum 1), ("foo", .str "x")] = ["foo"] := by decide
example : Regexi.reMatch "monitores".toList "Monitores".toList = true := by
  simp [Regexi.reMatch, Regexi.charMatch]
example : Regexi.reMatch "Monitores".toList "Monitores LED".toList = false := by
  simp [Regexi.reMatch, Regexi.charMatch]
example : Regexi.reMatch "a.".toList "ab".toList = true := by
  simp [Regexi.reMatch, Regexi.charMatch]
example : Regexi.reMatch ".*".toList "whatever".toList = true := by
  simp [Regexi.reMatch, Regexi.charMatch]

example : (deleteComputacion "999" [demoDoc]).resp.status = 200 := by decide
example : (deleteComputacion "abc" [demoDoc]).resp.status = 400 := by decide
example : (deleteComputacion "0abc" [demoDoc]).resp.status = 400 := by decide
example : (patchComputacion "5" [("precio", pnum 100)] [demoDoc]).resp.status = 200 := by decide
example : (patchComputacion "5" [("precio", pnum 50)] [demoDoc]).resp.status = 404 := by decide
example : (patchComputacion "9" [("precio", pnum 100)] [demoDoc]).resp.status = 404 := by decide
example : (postComputacion demoDoc [demoDoc]).resp.status = 400 := by decide
example : (postComputacion demoDoc []).resp.status = 201 := by decide
example : (postComputacion (("foo", .str "x") :: demoDoc) []).resp.status = 400 := by decide
example : (putComputacion "5" demoDoc [demoDoc]).resp.status = 500 := by decide
example : (putComputacion "5" (docSet "precio" (pnum 60) demoDoc) [demoDoc]).resp.status = 200 := by
  decide
example : (getComputacionCodigo "5" [demoDoc]).resp.status = 200 := by decide
example : (getComputacionCodigo "12abc" [demoDoc]).resp.status = 404 := by decide
example : (getComputacionPrecio "0" [demoDoc]).resp.status = 400 := by decide
example : (getComputacionPrecio "3.5" [demoDoc]).resp.status = 200 := by decide
example : (getComputacionPrecio "Infinity" [demoDoc]).resp.status = 404 := by decide
example : (getComputacionPrecio "-Infinity" [demoDoc]).resp.status = 200 := by decide
example : (getComputacionPrecio "1e5" [demoDoc]).resp.status = 404 := by decide
example : (getComputacionPrecio "1e1" [demoDoc]).resp.status = 200 := by decide
example : (deleteComputacion "0x10" [demoDoc]).resp.status = 200 := by decide
example : (getComputacionCodigo "0x5" [demoDoc]).resp.status = 200 := by decide
example : (getComputacionCategoria "C" [demoDoc]).resp.status = 200 := by
  simp [getComputacionCategoria, categoriaResult, catMatches, dget, demoDoc, trimList, wsChar,
    Regexi.reMatch, Regexi.charMatch, errResp]
end SmokeTests

open Computacion

/-- C2: the delete route was meant to answer 404 when nothing matches the
code (its own 404 branch says "No se encontró ningun producto…" and the
spec requires 404), but the guard `!response.acknowledged &&
response.deletedCount === 0` is false for every acknowledged delete, so
deleting the absent code 999 from a store holding only code 5 answers 200
"Producto eliminado con éxito": the code contradicts the claim. -/
theorem c2_delete_unreachable_404 :
    ([demoDoc].any (hasCodigo 999) = false) ∧
    (deleteComputacion "999" [demoDoc]).resp.status = 200 ∧
    rget "msg" (deleteComputacion "999" [demoDoc]).resp.body =
      some (.prim (.str "Producto eliminado con éxito")) ∧
    (deleteComputacion "999" [demoDoc]).store = [demoDoc] := by
  decide

/-- C4 counterexample: the category parameter "a." is interpreted as a
regex, so the route returns the document whose category is "ab" even
though "ab" differs from "a." case-insensitively — refuting "no document
whose categoria differs from s is ever returned for any s". -/
theorem c4_counterexample :
    (getComputacionCategoria "a." [docAB]).resp.status = 200 ∧
    rget "respnse" (getComputacionCategoria "a." [docAB]).resp.body = some (.docs [docAB]) ∧
    lowerEq "a.".toList "ab".toList = false := by
  refine ⟨?_, ?_, by decide⟩ <;>
    simp [getComputacionCategoria, categoriaResult, catMatches, docAB, dget, trimList, wsChar,
      Regexi.reMatch, Regexi.charMatch, rget]

/-- C4 amended: for every category parameter whose trimmed characters
are all regex-literal (no metacharacter such as `.` or `*`), the route
returns exactly the documents whose `categoria` equals the parameter
case-insensitively — an anchored match, so "Monitores LED" is not
returned for "Monitores"; a parameter containing metacharacters is
interpreted as a regex and can match differing categories. -/
theorem c4_amended (s : String) (store : List Doc)
    (hq : ∀ c ∈ trimList s.toList, isRegexLit c = true) :
    getComputacionCategoria s store =
      categoriaResult (store.filter (catEqCI (trimList s.toList))) store := by
  unfold getComputacionCategoria
  exact congrArg (fun l => categoriaResult l store)
    (List.filter_congr (fun d _ => catMatches_eq_catEqCI hq d))

/-- C4 amended witness: querying "Monitores" against a store holding
"Monitores" and "Monitores LED" gives exactly the case-insensitive-equal
filter result, which keeps "Monitores" and drops "Monitores LED". -/
theorem c4_amended_witness :
    getComputacionCategoria "Monitores" [docMon, docMonLED] =
      categoriaResult ([docMon, docMonLED].filter (catEqCI (trimList "Monitores".toList)))
        [docMon, docMonLED] :=
  c4_amended "Monitores" [docMon, docMonLED] (by decide)

/-- C5: two handlers break the `{success, msg, response?}` envelope.  The
category route's success response carries its payload under the
misspelled key `respnse` (and no `response` key), and the replace
route's store-failure response is `{response: false, msg}` with no
`success` key. -/
theorem c5_envelope_broken :
    ((getComputacionCategoria "c" [demoDoc]).resp.status = 200 ∧
     rget "response" (getComputacionCategoria "c" [demoDoc]).resp.body = none ∧
     rget "respnse" (getComputacionCategoria "c" [demoDoc]).resp.body = some (.docs [demoDoc]) ∧
     rget "success" (getComputacionCategoria "c" [demoDoc]).resp.body =
       some (.prim (.bool true))) ∧
    ((putComputacion "5" demoDoc []).resp.status = 500 ∧
     rget "success" (putComputacion "5" demoDoc []).resp.body = none ∧
     rget "response" (putComputacion "5" demoDoc []).resp.body = some (.prim (.bool false))) := by
  constructor
  · refine ⟨?_, ?_, ?_, ?_⟩ <;>
      simp [getComputacionCategoria, categoriaResult, catMatches, dget, demoDoc, trimList,
        wsChar, Regexi.reMatch, Regexi.charMatch, rget]
  · decide

/-- C7 counterexample: a price patch with valid code 5 and valid price 50
against a store whose document with code 5 already has price 50 matches a
document, yet `modifiedCount` is 0, so the handler answers 404 — refuting
"returns 404 if and only if no document matches the code". -/
theorem c7_counterexample :
    parseIntJS "5" = some 5 ∧
    parseFloatPrim (dget "precio" [("precio", pnum 50)]) = some (JNum.ofInt 50) ∧
    ([demoDoc].any (hasCodigo 5) = true) ∧
    (patchComputacion "5" [("precio", pnum 50)] [demoDoc]).resp.status = 404 := by
  decide

/-- C10 counterexample: the path parameter "0abc" begins with a digit,
its leading integer is 0, and the delete route rejects it with 400
without touching the store — refuting "only parameters with no leading
integer are rejected as non-numeric". -/
theorem c10_counterexample :
    parseIntJS "0abc" = some 0 ∧
    (deleteComputacion "0abc" [demoDoc]).resp.status = 400 ∧
    (deleteComputacion "0abc" [demoDoc]).db = false := by
  decide

/-- C8 counterexample: the price path parameter "0" is numeric
(`parseFloat` yields 0), yet the get-by-price route answers 400 because
the guard `!productoPrecio` treats the number 0 as invalid — refuting
"returns 400 if and only if the price path parameter is non-numeric". -/
theorem c8_counterexample :
    parseFloatJS "0" = some (.finite (JNum.ofInt 0)) ∧
    (getComputacionPrecio "0" [demoDoc]).resp.status = 400 := by
  decide

/-- C8 amended: the get-by-price route answers 400 exactly when
`parseFloat` of the trimmed parameter is `NaN` (no parsable number) or
falsy (the value 0); every other parsed value — nonzero finite prices,
including exponent forms such as "1e5" = 100000, and both infinities —
proceeds to the store query for `precio ≥` that value, answering 200
with the matches or 404 when none match. -/
theorem c8_amended (s : String) (store : List Doc) :
    ((getComputacionPrecio s store).resp.status = 400 ↔
      (parseFloatJS s = none ∨ ∃ p, parseFloatJS s = some p ∧ p.falsy = true)) ∧
    (∀ p, parseFloatJS s = some p → p.falsy = false →
      getComputacionPrecio s store = precioResult (store.filter (precioGte p)) store) := by
  constructor
  · unfold getComputacionPrecio
    cases h : parseFloatJS s with
    | none => simp [errResp]
    | some p =>
      by_cases hp : p.falsy = true
      · simp [hp, errResp]
      · simp only [hp, if_false, Bool.false_eq_true, if_neg hp]
        unfold precioResult
        split <;> simp [errResp, hp]
  · intro p hp hm
    unfold getComputacionPrecio
    rw [hp]
    simp [hm]

/-- C8 amended, witness at a concrete input: price parameter "1e5"
parses to 100000 and the route returns the store query result for
`precio ≥ 100000`. -/
theorem c8_amended_witness :
    getComputacionPrecio "1e5" [demoDoc] =
      precioResult ([demoDoc].filter (precioGte (.finite ⟨100000, 0⟩))) [demoDoc] :=
  (c8_amended "1e5" [demoDoc]).2 (.finite ⟨100000, 0⟩) (by decide) (by decide)

/-- C9: whenever a validation of the create, replace or price-patch
route rejects the request (disallowed fields, missing fields, invalid
code, or invalid price), the handler answers 400 without reaching
`connectDB` and leaves the collection unchanged — all validations run
before any store interaction. -/
theorem c9_fail_fast (param : String) (body : Doc) (store : List Doc) :
    (postValFail body →
      (postComputacion body store).resp.status = 400 ∧
      (postComputacion body store).db = false ∧
      (postComputacion body store).store = store) ∧
    (putValFail param body →
      (putComputacion param body store).resp.status = 400 ∧
      (putComputacion param body store).db = false ∧
      (putComputacion param body store).store = store) ∧
    (patchValFail param body →
      (patchComputacion param body store).resp.status = 400 ∧
      (patchComputacion param body store).db = false ∧
      (patchComputacion param body store).store = store) := by
  refine ⟨?_, ?_, ?_⟩ <;> intro h
  · unfold postComputacion
    repeat' split
    all_goals (rcases h with h | h | h | h | h)
    all_goals try simp_all [codeLt1, List.isEmpty_iff, errResp]
    all_goals ((try split_ifs) <;> (try simp_all [codeLt1, List.isEmpty_iff, errResp]))
    all_goals omega
  · unfold putComputacion
    repeat' split
    all_goals (rcases h with h | h | h | h | h | h)
    all_goals try simp_all [codeZero, List.isEmpty_iff, errResp]
    all_goals try (cases hpi : parseIntJS param <;> simp_all [errResp])
    all_goals ((try split_ifs) <;> (try simp_all [codeZero, List.isEmpty_iff, errResp]))
  · unfold patchComputacion
    all_goals (rcases h with h | h)
    all_goals try (cases hpi : parseIntJS param)
    all_goals try simp_all [codeLe0, priceLe0, errResp]
    all_goals try (cases hpf : parseFloatPrim (dget "precio" body))
    all_goals try simp_all [errResp]
    all_goals ((try split_ifs) <;> (try simp_all [errResp]))

/-- C9 witness: the body `{foo: "x"}` fails create validation, and the
non-numeric code "abc" fails replace and price-patch validation; all
three answer 400 with no store access and an unchanged collection. -/
theorem c9_fail_fast_witness :
    ((postComputacion [("foo", Prim.str "x")] [demoDoc]).resp.status = 400 ∧
     (postComputacion [("foo", Prim.str "x")] [demoDoc]).db = false ∧
     (postComputacion [("foo", Prim.str "x")] [demoDoc]).store = [demoDoc]) ∧
    ((putComputacion "abc" [("foo", Prim.str "x")] [demoDoc]).resp.status = 400 ∧
     (putComputacion "abc" [("foo", Prim.str "x")] [demoDoc]).db = false ∧
     (putComputacion "abc" [("foo", Prim.str "x")] [demoDoc]).store = [demoDoc]) ∧
    ((patchComputacion "abc" [("foo", Prim.str "x")] [demoDoc]).resp.status = 400 ∧
     (patchComputacion "abc" [("foo", Prim.str "x")] [demoDoc]).db = false ∧
     (patchComputacion "abc" [("foo", Prim.str "x")] [demoDoc]).store = [demoDoc]) :=
  ⟨(c9_fail_fast "abc" [("foo", Prim.str "x")] [demoDoc]).1 (Or.inl (by decide)),
   (c9_fail_fast "abc" [("foo", Prim.str "x")] [demoDoc]).2.1 (Or.inl (by decide)),
   (c9_fail_fast "abc" [("foo", Prim.str "x")] [demoDoc]).2.2 (Or.inl (by decide))⟩

/-- C10 amended: code parameters are interpreted by JS `parseInt` of
the trimmed parameter — "12abc" is parsed as its leading integer 12 and
behaves exactly like "12" in the get-by-code, replace, price-patch and
delete operations, and a hex-prefixed parameter is parsed in radix 16,
so "0x10" behaves exactly like "16".  Get-by-code rejects with 400
exactly the parameters `parseInt` cannot parse at all; replace and
delete also reject parameters parsing to 0 (such as "0abc"), and
price-patch also rejects parameters parsing to an integer ≤ 0. -/
theorem c10_amended (store : List Doc) (body : Doc) :
    (deleteComputacion "12abc" store = deleteComputacion "12" store) ∧
    (patchComputacion "12abc" body store = patchComputacion "12" body store) ∧
    (putComputacion "12abc" body store = putComputacion "12" body store) ∧
    (getComputacionCodigo "12abc" store = getComputacionCodigo "12" store) ∧
    (∀ s : String, (getComputacionCodigo s store).resp.status = 400 ↔ parseIntJS s = none) ∧
    (∀ s : String, parseIntJS s = none ∨ parseIntJS s = some 0 →
      (deleteComputacion s store).resp.status = 400 ∧
      (putComputacion s body store).resp.status = 400) ∧
    (∀ (s : String) (n : Int), parseIntJS s = some n → n ≤ 0 →
      (patchComputacion s body store).resp.status = 400) ∧
    (deleteComputacion "0x10" store = deleteComputacion "16" store) ∧
    (patchComputacion "0x10" body store = patchComputacion "16" body store) ∧
    (putComputacion "0x10" body store = putComputacion "16" body store) ∧
    (getComputacionCodigo "0x10" store = getComputacionCodigo "16" store) := by
  refine ⟨deleteComputacion_parse_congr (by decide) store,
          patchComputacion_parse_congr (by decide) body store,
          putComputacion_parse_congr (by decide) body store,
          getComputacionCodigo_parse_congr (by decide) store, ?_, ?_, ?_,
          deleteComputacion_parse_congr (by decide) store,
          patchComputacion_parse_congr (by decide) body store,
          putComputacion_parse_congr (by decide) body store,
          getComputacionCodigo_parse_congr (by decide) store⟩
  · intro s
    unfold getComputacionCodigo
    cases h : parseIntJS s with
    | none => simp [errResp]
    | some n => cases hf : findOneCodigo n store <;> simp [hf, errResp]
  · intro s h
    constructor
    · unfold deleteComputacion
      rcases h with h | h <;> simp [h, errResp]
    · unfold putComputacion
      rcases h with h | h <;> simp [h, errResp]
  · intro s n h hn
    unfold patchComputacion
    rw [h]
    simp [hn, errResp]

/-- C1 counterexample: a replace request whose body holds the disallowed
key "foo" but whose code path parameter is "abc" answers 400 with the
invalid-code message — the code check runs before the allowlist check —
so the 400 does not list the offending keys as the claim requires for
every such request. -/
theorem c1_counterexample :
    controlDeCampos [("foo", Prim.str "x")] = ["foo"] ∧
    (putComputacion "abc" [("foo", Prim.str "x")] []).resp.status = 400 ∧
    rget "msg" (putComputacion "abc" [("foo", Prim.str "x")] []).resp.body =
      some (.prim (.str "El código de producto es inválido")) ∧
    rget "msg" (putComputacion "abc" [("foo", Prim.str "x")] []).resp.body ≠
      some (.prim (.str "Error, se enviaron campos que no están en la base de datos: foo")) := by
  decide

/-- C1 amended: `controlDeCampos` returns exactly the keys of the body
outside {codigo, nombre, precio, categoria} (empty exactly when the body
is valid); a body holding any disallowed key makes the create operation —
and, whenever the code path parameter parses to a nonzero integer, the
replace operation — answer 400 with the message listing exactly the
offending keys. -/
theorem c1_amended (body : Doc) (store : List Doc) :
    controlDeCampos body =
      (body.map Prod.fst).filter (fun k => !(camposPermitidos.contains k)) ∧
    (controlDeCampos body = [] ↔ ∀ k ∈ body.map Prod.fst, k ∈ camposPermitidos) ∧
    (controlDeCampos body ≠ [] →
      (postComputacion body store).resp =
        errResp 400 ("Error, se enviaron campos que no están en la base de datos: "
          ++ String.intercalate ", " (controlDeCampos body)) ∧
      ∀ (param : String) (n : Int), parseIntJS param = some n → n ≠ 0 →
        (putComputacion param body store).resp =
          errResp 400 ("Error, se enviaron campos que no están en la base de datos: "
            ++ String.intercalate ", " (controlDeCampos body))) := by
  refine ⟨rfl, ?_, ?_⟩
  · simp [controlDeCampos, List.filter_eq_nil_iff]
  · intro h
    have hne : ¬ (controlDeCampos body).isEmpty := by
      simpa [List.isEmpty_iff] using h
    constructor
    · unfold postComputacion
      rw [if_pos hne]
    · intro param n hpn hn0
      simp [putComputacion, hpn, hn0, hne]

/-- C1 amended witness: the body `{foo: "x"}` makes create, and replace
with parameter "12abc", answer the 400 listing exactly "foo". -/
theorem c1_amended_witness :
    (postComputacion [("foo", Prim.str "x")] []).resp =
      errResp 400 ("Error, se enviaron campos que no están en la base de datos: "
        ++ String.intercalate ", " (controlDeCampos [("foo", Prim.str "x")])) ∧
    (putComputacion "12abc" [("foo", Prim.str "x")] []).resp =
      errResp 400 ("Error, se enviaron campos que no están en la base de datos: "
        ++ String.intercalate ", " (controlDeCampos [("foo", Prim.str "x")])) :=
  ⟨((c1_amended [("foo", Prim.str "x")] []).2.2 (by decide)).1,
   ((c1_amended [("foo", Prim.str "x")] []).2.2 (by decide)).2 "12abc" 12
     (by decide) (by decide)⟩

/-- C3: a create request whose integer `codigo` already exists in the
collection answers 400 and leaves the collection unchanged; and the
create operation preserves the invariant that no two documents share a
`codigo` (creating `codigo=10` twice leaves exactly one such
document). -/
theorem c3_create_unique (body : Doc) (store : List Doc) (n : Int)
    (hb : dget "codigo" body = some (pnum n)) :
    (findOneCodigo n store ≠ none →
      (postComputacion body store).resp.status = 400 ∧
      (postComputacion body store).store = store) ∧
    ((∀ m : Int, countCodigo m store ≤ 1) →
      ∀ m : Int, countCodigo m ((postComputacion body store).store) ≤ 1) := by
  have master :
      ((postComputacion body store).resp.status = 400 ∧
        (postComputacion body store).store = store) ∨
      ((postComputacion body store).store = store ++ [body] ∧
        findOneCodigo n store = none) := by
    simp only [postComputacion, hb, pnum, parseIntPrim, JNum.trunc_ofInt]
    split
    · exact Or.inl ⟨rfl, rfl⟩
    · split
      · exact Or.inl ⟨rfl, rfl⟩
      · split
        · exact Or.inl ⟨rfl, rfl⟩
        · split
          · exact Or.inl ⟨rfl, rfl⟩
          · split
            · exact Or.inl ⟨rfl, rfl⟩
            · split
              · exact Or.inl ⟨rfl, rfl⟩
              · rename_i hfound
                exact Or.inr ⟨rfl, hfound⟩
  constructor
  · intro hfind
    rcases master with h | ⟨_, hnone⟩
    · exact h
    · exact absurd hnone hfind
  · intro hstore m
    rcases master with ⟨_, hs⟩ | ⟨hs, hnone⟩
    · rw [hs]; exact hstore m
    · rw [hs]
      have hcount0 : countCodigo n store = 0 := by
        simp only [countCodigo]
        exact List.countP_eq_zero.mpr (List.find?_eq_none.mp hnone)
      by_cases hm : n = m
      · subst hm
        have h1 : store.countP (hasCodigo n) = 0 := by simpa [countCodigo] using hcount0
        have h2 : List.countP (hasCodigo n) [body] ≤ 1 := by
          simp only [List.countP_cons, List.countP_nil]
          split <;> omega
        simp only [countCodigo, List.countP_append]
        omega
      · have hfalse : hasCodigo m body = false := by
          rw [hasCodigo_of_dget hb]
          simpa using hm
        have := hstore m
        simp only [countCodigo, List.countP_append] at *
        simp [List.countP_cons, hfalse]
        omega

/-- C3 witness: creating the demo document (code 5) when it is already
stored answers 400 and leaves the store unchanged. -/
theorem c3_create_unique_witness :
    (postComputacion demoDoc [demoDoc]).resp.status = 400 ∧
    (postComputacion demoDoc [demoDoc]).store = [demoDoc] :=
  (c3_create_unique demoDoc [demoDoc] 5 (by decide)).1 (by decide)

/-- C6: a successful price patch (valid code, valid positive price,
status 200) rewrites exactly the first document matching the code: that
document's `precio` becomes the new price, its every other field (in
particular `codigo`, `nombre`, `categoria`) is unchanged, and every
other document of the collection is untouched. -/
theorem c6_patch_frame (param : String) (body : Doc) (store : List Doc)
    (n : Int) (p : JNum)
    (hn : parseIntJS param = some n) (hn0 : 0 < n)
    (hp : parseFloatPrim (dget "precio" body) = some p)
    (hp0 : p.le (JNum.ofInt 0) = false)
    (h200 : (patchComputacion param body store).resp.status = 200) :
    ∃ pre d post,
      store = pre ++ d :: post ∧
      (∀ e ∈ pre, hasCodigo n e = false) ∧
      hasCodigo n d = true ∧
      (patchComputacion param body store).store = pre ++ docSet "precio" (.num p) d :: post ∧
      dget "precio" (docSet "precio" (.num p) d) = some (.num p) ∧
      (∀ k, k ≠ "precio" → dget k (docSet "precio" (.num p) d) = dget k d) := by
  obtain ⟨hstore, h200iff, _⟩ := patchComputacion_valid param body store n p hn hn0 hp hp0
  obtain ⟨hany, _⟩ := h200iff.mp h200
  obtain ⟨pre, d, post, hl, hpre, hd, hu⟩ :=
    updateFirst_decomp (f := hasCodigo n) (g := docSet "precio" (.num p)) hany
  exact ⟨pre, d, post, hl, hpre, hd, hstore.trans hu,
    dget_docSet_self _ _ _, fun k hk => dget_docSet_ne hk _ _⟩

/-- C6 witness: patching code 5 with price 100 on a store holding code 5
at price 50 returns 200 and satisfies the frame property. -/
theorem c6_patch_frame_witness :
    (patchComputacion "5" [("precio", pnum 100)] [demoDoc]).resp.status = 200 ∧
    (∃ pre d post,
      [demoDoc] = pre ++ d :: post ∧
      (∀ e ∈ pre, hasCodigo 5 e = false) ∧
      hasCodigo 5 d = true ∧
      (patchComputacion "5" [("precio", pnum 100)] [demoDoc]).store =
        pre ++ docSet "precio" (.num ⟨100, 0⟩) d :: post ∧
      dget "precio" (docSet "precio" (.num ⟨100, 0⟩) d) = some (.num ⟨100, 0⟩) ∧
      (∀ k, k ≠ "precio" →
        dget k (docSet "precio" (.num ⟨100, 0⟩) d) = dget k d)) :=
  ⟨by decide,
   c6_patch_frame "5" [("precio", pnum 100)] [demoDoc] 5 ⟨100, 0⟩
     (by decide) (by decide) (by decide) (by decide) (by decide)⟩

/-- C7 amended: under a valid code and a valid positive price, the
price patch answers 404 exactly when no document matches the code or the
matched document is left unmodified because its `precio` already equals
the new price (`modifiedCount` 0); it answers 200 exactly when a
document matches and its `precio` actually changes. -/
theorem c7_amended (param : String) (body : Doc) (store : List Doc)
    (n : Int) (p : JNum)
    (hn : parseIntJS param = some n) (hn0 : 0 < n)
    (hp : parseFloatPrim (dget "precio" body) = some p)
    (hp0 : p.le (JNum.ofInt 0) = false) :
    ((patchComputacion param body store).resp.status = 200 ↔
      store.any (hasCodigo n) = true ∧
        updateFirst (hasCodigo n) (docSet "precio" (.num p)) store ≠ store) ∧
    ((patchComputacion param body store).resp.status = 404 ↔
      store.any (hasCodigo n) = false ∨
        updateFirst (hasCodigo n) (docSet "precio" (.num p)) store = store) :=
  (patchComputacion_valid param body store n p hn hn0 hp hp0).2

/-- C7 amended witness: patching code 5 with price 100 on a store
holding code 5 at price 50 instantiates both equivalences. -/
theorem c7_amended_witness :
    (((patchComputacion "5" [("precio", pnum 100)] [demoDoc]).resp.status = 200 ↔
      [demoDoc].any (hasCodigo 5) = true ∧
        updateFirst (hasCodigo 5) (docSet "precio" (.num ⟨100, 0⟩)) [demoDoc] ≠ [demoDoc]) ∧
    ((patchComputacion "5" [("precio", pnum 100)] [demoDoc]).resp.status = 404 ↔
      [demoDoc].any (hasCodigo 5) = false ∨
        updateFirst (hasCodigo 5) (docSet "precio" (.num ⟨100, 0⟩)) [demoDoc] = [demoDoc])) :=
  c7_amended "5" [("precio", pnum 100)] [demoDoc] 5 ⟨100, 0⟩
    (by decide) (by decide) (by decide) (by decide)

/-- C10 amended, witness at a concrete input: "abc" has no leading
integer and both delete and replace reject it with 400. -/
theorem c10_amended_witness :
    (deleteComputacion "abc" [demoDoc]).resp.status = 400 ∧
    (putComputacion "abc" [("precio", pnum 100)] [demoDoc]).resp.status = 400 :=
  (c10_amended [demoDoc] [("precio", pnum 100)]).2.2.2.2.2.1 "abc" (Or.inl (by decide))
